import Mathlib

/-! # minecraft-userdata: a shallow embedding of the lookup functions

The library resolves a Minecraft player name to an identity through one HTTP
request, and for the full profile decodes a base64-wrapped JSON texture payload
from a second request.  The functions of `src/index.js` and of the per-file
helpers under `src/Bin` are embedded here as pure functions of a `World`, which
fixes the outcome of every request and the behaviour of the two library calls
`Base64.decode` and `JSON.parse`.

A settled promise is an `Except JsError JsVal`: `.ok v` is a promise resolved
with `v`, `.error e` a promise rejected with `e`.  `.then f` is the bind of
`Except`, and `.catch (() => { throw e })` is `catchThrow`.
-/

namespace MinecraftUserdata

set_option maxRecDepth 100000

/-! ## JavaScript values -/

/-- The JavaScript values the program handles: `undefined` and the values a JSON
document can denote.  A number is kept as its canonical decimal rendering (what
`String(n)` gives), which determines the number up to the sign of zero; an
object is the list of its own properties, first binding first. -/
inductive JsVal where
  | undefined
  | null
  | bool (b : Bool)
  | num (canon : String)
  | str (s : String)
  | arr (xs : List JsVal)
  | obj (fields : List (String × JsVal))

/-- An exception value: the constructor name (`TypeError`, `SyntaxError`, ...)
and its message. -/
structure JsError where
  name : String
  message : String
deriving DecidableEq, Repr

/-- The outcome of an awaited promise chain. -/
abbrev Settled := Except JsError JsVal

/-- ToBoolean: `undefined`, `null`, `false`, `0`, `NaN` and the empty string are
falsy, every other value (every array and object included) is truthy. -/
def truthy : JsVal → Bool
  | .undefined => false
  | .null => false
  | .bool b => b
  | .num c => !(c == "0" || c == "NaN")
  | .str s => !(s == "")
  | .arr _ => true
  | .obj _ => true

/-- The array index a property key denotes, if it is the canonical decimal form
of a natural number (`"0"`, `"17"`, but not `"007"` or `"model"`). -/
def arrayIndex? (k : String) : Option Nat :=
  match k.data with
  | [] => none
  | ['0'] => some 0
  | '0' :: _ => none
  | cs => cs.foldlM (fun acc c => if c.isDigit then some (acc * 10 + (c.toNat - 48)) else none) 0

/-- The TypeError raised by a property read on, or a destructuring of,
`undefined` or `null`.  The engine words the message after the expression read;
only the kind of error and the value that refused the read are kept. -/
def readError (what : String) : JsError :=
  ⟨"TypeError", "Cannot read properties of " ++ what⟩

/-- Property read `v.k` / `v[k]`, for the keys the program reads (`id`, `name`,
`properties`, `0`, `value`, `timestamp`, `textures`, `SKIN`, `CAPE`, `url`,
`metadata`, `model`), none of which is defined on a built-in prototype.  A read
on `undefined` or `null` throws; an object yields its own property or
`undefined`; an array or a string answers index keys only (a string is indexed
here by character, which is the UTF-16 unit for characters of the basic plane);
numbers and booleans have none of these properties. -/
def getProp (v : JsVal) (k : String) : Settled :=
  match v with
  | .undefined => .error (readError "undefined")
  | .null => .error (readError "null")
  | .obj fields => .ok ((fields.lookup k).getD .undefined)
  | .arr xs =>
    match arrayIndex? k with
    | some n => .ok ((xs.get? n).getD .undefined)
    | none => .ok .undefined
  | .str s =>
    match arrayIndex? k with
    | some n =>
      match s.toList.get? n with
      | some c => .ok (.str (String.singleton c))
      | none => .ok .undefined
    | none => .ok .undefined
  | .bool _ => .ok .undefined
  | .num _ => .ok .undefined

/-- The TypeError raised when an object cannot be converted to a string. -/
def toPrimitiveError : JsError :=
  ⟨"TypeError", "Cannot convert object to primitive value"⟩

mutual
/-- ToString, as applied by a template literal to an interpolated value.  An
array is joined with commas (`Array.prototype.toString`); a plain object gives
`[object Object]` through `Object.prototype.toString`, unless an own property
named `toString` shadows it: a JSON value is never callable, and the fallback
`valueOf` does not return a primitive, so the conversion throws. -/
def toStr : JsVal → Except JsError String
  | .undefined => .ok "undefined"
  | .null => .ok "null"
  | .bool b => .ok (if b then "true" else "false")
  | .num c => .ok c
  | .str s => .ok s
  | .arr xs => joinElems xs
  | .obj fields =>
    match fields.lookup "toString" with
    | some _ => .error toPrimitiveError
    | none => .ok "[object Object]"
/-- `Array.prototype.join` with the default separator. -/
def joinElems : List JsVal → Except JsError String
  | [] => .ok ""
  | [x] => elemStr x
  | x :: y :: rest => do
    let a ← elemStr x
    let b ← joinElems (y :: rest)
    pure (a ++ "," ++ b)
/-- The text of one element inside `join`: `undefined` and `null` give the empty
string, every other element its ToString. -/
def elemStr : JsVal → Except JsError String
  | .undefined => .ok ""
  | .null => .ok ""
  | .bool b => .ok (if b then "true" else "false")
  | .num c => .ok c
  | .str s => .ok s
  | .arr xs => joinElems xs
  | .obj fields =>
    match fields.lookup "toString" with
    | some _ => .error toPrimitiveError
    | none => .ok "[object Object]"
end

/-- Strict equality with a string literal: `v === lit`. -/
def strictEqStr (v : JsVal) (lit : String) : Bool :=
  match v with
  | .str s => s == lit
  | _ => false

/-- Promise `.catch(() => { throw e })`: a resolved promise passes through, a
rejected one is rejected again with the fresh error `e`. -/
def catchThrow (p : Settled) (e : JsError) : Settled :=
  match p with
  | .ok v => .ok v
  | .error _ => .error e

/-! ## The environment -/

/-- What the program cannot decide itself.  `fetchJson url` is the outcome of
`fetch(url).then((res) => res.json())`: rejected when the request fails or the
body is not JSON, resolved with the parsed body otherwise (whatever the HTTP
status).  `base64Decode` is `Base64.decode` of js-base64 and `jsonParse` is
`JSON.parse`; both may throw. -/
structure World where
  fetchJson : String → Settled
  base64Decode : JsVal → Settled
  jsonParse : JsVal → Settled

/-- The identity-lookup endpoint for a player name. -/
def identityUrl (name : String) : String :=
  "https://api.mojang.com/users/profiles/minecraft/" ++ name

/-- The session-profile endpoint for a player id. -/
def sessionUrl (id : String) : String :=
  "https://sessionserver.mojang.com/session/minecraft/profile/" ++ id

/-- `new TypeError('User not found')`. -/
def userNotFound : JsError := ⟨"TypeError", "User not found"⟩

/-- `new TypeError('Profile not found or user not found')`. -/
def profileNotFound : JsError := ⟨"TypeError", "Profile not found or user not found"⟩

/-- `new TypeError('Invaild username')` (spelt as in the source). -/
def invalidUsername : JsError := ⟨"TypeError", "Invaild username"⟩

/-! ## `src/index.js`

Each exported function is embedded on its own, as its body is written.  The
record of `GetProfile` is built by a callback nested in a callback; the two are
`onProfile` and `onUuid` below. -/

namespace Index

/-- `GetUUID(name)`, index.js lines 13-20. -/
def GetUUID (w : World) (name : String) : Settled :=
  catchThrow (w.fetchJson (identityUrl name) >>= fun uid => getProp uid "id") userNotFound

/-- `GetName(uuid)`, index.js lines 31-38. -/
def GetName (w : World) (uuid : String) : Settled :=
  catchThrow (w.fetchJson (sessionUrl uuid) >>= fun data => getProp data "name") userNotFound

/-- The texture payload of a session profile:
`JSON.parse(Base64.decode(profile.properties[0].value))`, index.js line 65. -/
def decodePayload (w : World) (profile : JsVal) : Settled := do
  let properties ← getProp profile "properties"
  let first ← getProp properties "0"
  let value ← getProp first "value"
  let text ← w.base64Decode value
  w.jsonParse text

/-- `SKIN && SKIN.url`, index.js line 72. -/
def skinOf (SKIN : JsVal) : Settled :=
  if truthy SKIN then getProp SKIN "url" else .ok SKIN

/-- `(CAPE && CAPE.url) || 'No cape found'`, index.js line 73. -/
def capeOf (CAPE : JsVal) : Settled := do
  let c ← if truthy CAPE then getProp CAPE "url" else .ok CAPE
  pure (if truthy c then c else .str "No cape found")

/-- `SKIN && SKIN.metadata && SKIN.metadata.model === 'slim'`, the left operand
of `||` on index.js line 74. -/
def slimChain (SKIN : JsVal) : Settled :=
  if truthy SKIN then do
    let metadata ← getProp SKIN "metadata"
    if truthy metadata then do
      let metadata2 ← getProp SKIN "metadata"
      let model ← getProp metadata2 "model"
      pure (.bool (strictEqStr model "slim"))
    else pure metadata
  else .ok SKIN

/-- `(SKIN && SKIN.metadata && SKIN.metadata.model === 'slim') || false`,
index.js line 74. -/
def isSlimOf (SKIN : JsVal) : Settled := do
  let c ← slimChain SKIN
  pure (if truthy c then c else .bool false)

/-- The record built from a session profile and its parsed texture payload,
index.js lines 65-75: the two destructurings and the object literal. -/
def buildRecord (profile payload : JsVal) : Settled := do
  let timestamp ← getProp payload "timestamp"
  let textures ← getProp payload "textures"
  let SKIN ← getProp textures "SKIN"
  let CAPE ← getProp textures "CAPE"
  let uuid ← getProp profile "id"
  let username ← getProp profile "name"
  let skin ← skinOf SKIN
  let cape ← capeOf CAPE
  let isSlim ← isSlimOf SKIN
  pure (.obj [("timestamp", timestamp), ("uuid", uuid), ("username", username),
    ("skin", skin), ("cape", cape), ("isSlim", isSlim)])

/-- The callback applied to the session profile, index.js lines 64-76. -/
def onProfile (w : World) (profile : JsVal) : Settled := do
  let payload ← decodePayload w profile
  buildRecord profile payload

/-- The session-profile stage started inside the outer callback, index.js lines
62-79: fetch, decode, and the inner `.catch`. -/
def profileStage (w : World) (id : String) : Settled :=
  catchThrow (w.fetchJson (sessionUrl id) >>= onProfile w) profileNotFound

/-- The callback applied to the identity body, index.js lines 61-80.  It awaits
the session-profile stage, so it is read as an async function (without the
`async` keyword the `await` on line 62 does not parse).  Its block body has no
`return`: when the awaited stage resolves, the record is dropped and the
callback resolves with `undefined`; when the stage rejects, so does the
callback. -/
def onUuid (w : World) (uuid : JsVal) : Settled := do
  let id ← getProp uuid "id"
  let idText ← toStr id
  let _ ← profileStage w idText
  pure .undefined

/-- `GetProfile(name)`, index.js lines 58-84. -/
def GetProfile (w : World) (name : String) : Settled :=
  catchThrow (w.fetchJson (identityUrl name) >>= onUuid w) invalidUsername

/-- `GetSkin(name)`, index.js lines 96-103. -/
def GetSkin (w : World) (name : String) : Settled := do
  let id ← catchThrow (w.fetchJson (identityUrl name) >>= fun uid => getProp uid "id")
    userNotFound
  let text ← toStr id
  pure (.str ("https://crafatar.com/skins/" ++ text))

/-- `GetSkinRenderedBody(name)`, index.js lines 115-122. -/
def GetSkinRenderedBody (w : World) (name : String) : Settled := do
  let id ← catchThrow (w.fetchJson (identityUrl name) >>= fun uid => getProp uid "id")
    userNotFound
  let text ← toStr id
  pure (.str ("https://crafatar.com/renders/body/" ++ text))

/-- `GetSkinRenderedHead(name)`, index.js lines 134-141. -/
def GetSkinRenderedHead (w : World) (name : String) : Settled := do
  let id ← catchThrow (w.fetchJson (identityUrl name) >>= fun uid => getProp uid "id")
    userNotFound
  let text ← toStr id
  pure (.str ("https://crafatar.com/renders/head/" ++ text))

/-- `GetCape(name)`, index.js lines 153-160. -/
def GetCape (w : World) (name : String) : Settled := do
  let id ← catchThrow (w.fetchJson (identityUrl name) >>= fun uid => getProp uid "id")
    userNotFound
  let text ← toStr id
  pure (.str ("https://crafatar.com/capes/" ++ text))

/-- `GetAvatar(name)`, index.js lines 172-179. -/
def GetAvatar (w : World) (name : String) : Settled := do
  let id ← catchThrow (w.fetchJson (identityUrl name) >>= fun uid => getProp uid "id")
    userNotFound
  let text ← toStr id
  pure (.str ("https://crafatar.com/avatars/" ++ text))

/-- `GetData(name)`, index.js lines 190-202. -/
def GetData (w : World) (name : String) : Settled :=
  catchThrow
    (w.fetchJson (identityUrl name) >>= fun uid => do
      let username ← getProp uid "name"
      let uuid ← getProp uid "id"
      pure (.obj [("username", username), ("uuid", uuid)]))
    userNotFound

end Index

/-! ## `src/Bin` -/

namespace Bin

/-- What a helper script leaves behind: the lines it printed with `console.log`
and the settled promise it returned. -/
structure Run where
  log : List String
  result : Settled

/-- The shared opening of the helper scripts: `uid` is the fetched body, or
stays `undefined` after a logged failure (the `try`/`catch` around the fetch). -/
def fetchOrLog (w : World) (url msg : String) : List String × JsVal :=
  match w.fetchJson url with
  | .ok body => ([], body)
  | .error _ => ([msg], .undefined)

/-- `GetAvatar(name)`, Bin/GetAvatar.js lines 2-12. -/
def GetAvatar (w : World) (name : String) : Run :=
  let r := fetchOrLog w (identityUrl name) "Invaild username or user not found"
  { log := r.1
    result := do
      let id ← getProp r.2 "id"
      let text ← toStr id
      pure (.str ("https://crafatar.com/avatar/" ++ text)) }

/-- `SKIN && SKIN.url`, Bin/GetProfile.js line 20. -/
def skinOf (SKIN : JsVal) : Settled :=
  if truthy SKIN then getProp SKIN "url" else .ok SKIN

/-- `CAPE && CAPE.url`, Bin/GetProfile.js line 21. -/
def capeOf (CAPE : JsVal) : Settled :=
  if truthy CAPE then getProp CAPE "url" else .ok CAPE

/-- `SKIN && SKIN.metadata && SKIN.metadata.model === 'slim'`,
Bin/GetProfile.js line 22. -/
def isSlimOf (SKIN : JsVal) : Settled :=
  if truthy SKIN then do
    let metadata ← getProp SKIN "metadata"
    if truthy metadata then do
      let metadata2 ← getProp SKIN "metadata"
      let model ← getProp metadata2 "model"
      pure (.bool (strictEqStr model "slim"))
    else pure metadata
  else .ok SKIN

/-- Lines 12-23 of Bin/GetProfile.js, run on the value `uid` left by the fetch:
decode the payload, destructure it and build the record.  Nothing here is inside
a `try`. -/
def decodeProfile (w : World) (uid : JsVal) : Settled := do
  let properties ← getProp uid "properties"
  let first ← getProp properties "0"
  let value ← getProp first "value"
  let text ← w.base64Decode value
  let payload ← w.jsonParse text
  let timestamp ← getProp payload "timestamp"
  let textures ← getProp payload "textures"
  let SKIN ← getProp textures "SKIN"
  let CAPE ← getProp textures "CAPE"
  let id ← getProp uid "id"
  let name ← getProp uid "name"
  let skin ← skinOf SKIN
  let cape ← capeOf CAPE
  let isSlim ← isSlimOf SKIN
  pure (.obj [("id", id), ("name", name), ("timestamp", timestamp),
    ("skin", skin), ("cape", cape), ("isSlim", isSlim)])

/-- `GetProfile(uuid)`, Bin/GetProfile.js lines 4-25. -/
def GetProfile (w : World) (uuid : String) : Run :=
  let r := fetchOrLog w (sessionUrl uuid) "Invaild UUID or UUID doesnt exist"
  { log := r.1, result := decodeProfile w r.2 }

end Bin

/-! ## The spec's reading of the slim-model flag -/

/-- The own property `k` of `v`, when `v` is an object that has one: what the
spec calls a field being present. -/
def ownField (v : JsVal) (k : String) : Option JsVal :=
  match v with
  | .obj fields => fields.lookup k
  | _ => none

/-- The texture map has a SKIN entry, that entry carries metadata, and the
metadata's model is the string `slim`. -/
def SlimModel (textures : JsVal) : Prop :=
  ∃ skin metadata, ownField textures "SKIN" = some skin ∧
    ownField skin "metadata" = some metadata ∧
    ownField metadata "model" = some (.str "slim")

/-- The identity service's contract for the id (spec: `id` is an opaque string):
whenever the lookup for `name` returns a body that can be read, its id is a
string, or is absent. -/
def IdIsText (w : World) (name : String) : Prop :=
  ∀ body v, w.fetchJson (identityUrl name) = .ok body → getProp body "id" = .ok v →
    v = .undefined ∨ ∃ s, v = .str s

/-! ## Scripted environments

Concrete worlds on which the functions are evaluated: a table of responses by
URL, a table from base64 text to the text it encodes, and a table from JSON text
to the value it denotes. -/

/-- A world that answers from tables.  A URL without an entry is a failed
request; a base64 string without an entry decodes to the empty string (js-base64
drops the characters outside the alphabet); a text without an entry is not
JSON. -/
def scripted (responses : List (String × JsVal)) (encoded : List (String × String))
    (documents : List (String × JsVal)) : World where
  fetchJson := fun url =>
    match responses.lookup url with
    | some body => .ok body
    | none => .error ⟨"FetchError", "request failed"⟩
  base64Decode := fun v =>
    match v with
    | .str s => .ok (.str ((encoded.lookup s).getD ""))
    | _ => .error ⟨"TypeError", "src.replace is not a function"⟩
  jsonParse := fun v =>
    match v with
    | .str t =>
      match documents.lookup t with
      | some d => .ok d
      | none => .error ⟨"SyntaxError", "Unexpected token in JSON"⟩
    | _ => .error ⟨"SyntaxError", "Unexpected token in JSON"⟩

/-- The id of the player in the examples of the documentation. -/
def exampleId : String := "987111ae0b1947e689e9db260e7ab860"

/-- The identity service's answer for the player `AsteroidsMC`. -/
def identityBody : JsVal :=
  .obj [("id", .str exampleId), ("name", .str "AsteroidsMC")]

/-- The identity service's answer for a name nobody holds: a JSON error body. -/
def unknownFields : List (String × JsVal) :=
  [("path", .str "/users/profiles/minecraft/nobody"),
    ("errorMessage", .str "Couldn't find any profile with name nobody")]

/-- The JSON error body as a value. -/
def unknownBody : JsVal := .obj unknownFields

/-- A session profile whose first property carries `value`. -/
def sessionProfile (value : String) : JsVal :=
  .obj [("id", .str exampleId), ("name", .str "AsteroidsMC"),
    ("properties", .arr [.obj [("name", .str "textures"), ("value", .str value)]])]

/-- A session profile with an empty properties list. -/
def bareProfile : JsVal :=
  .obj [("id", .str exampleId), ("name", .str "AsteroidsMC"), ("properties", .arr [])]

/-- The payload `{textures:{SKIN:{url:X}, CAPE:{url:Y}}}`. -/
def roundTripPayload (X Y : String) : JsVal :=
  .obj [("textures", .obj [("SKIN", .obj [("url", .str X)]), ("CAPE", .obj [("url", .str Y)])])]

/-- A payload with a slim skin and no cape. -/
def slimPayload : JsVal :=
  .obj [("timestamp", .num "1600000000000"),
    ("textures", .obj [("SKIN", .obj [("url", .str "http://textures.minecraft.net/texture/a1"),
      ("metadata", .obj [("model", .str "slim")])])])]

/-- The JSON text of `roundTripPayload "X" "Y"`. -/
def roundTripText : String :=
  "\x7b\"textures\":\x7b\"SKIN\":\x7b\"url\":\"X\"\x7d,\"CAPE\":\x7b\"url\":\"Y\"\x7d\x7d\x7d"

/-- The JSON text of `slimPayload`. -/
def slimText : String :=
  "\x7b\"timestamp\":1600000000000,\"textures\":\x7b\"SKIN\":\x7b\"url\":\"http://textures.minecraft.net/texture/a1\",\"metadata\":\x7b\"model\":\"slim\"\x7d\x7d\x7d\x7d"

/-- The base64 encoding of `roundTripText`. -/
def roundTripValue : String :=
  "eyJ0ZXh0dXJlcyI6eyJTS0lOIjp7InVybCI6IlgifSwiQ0FQRSI6eyJ1cmwiOiJZIn19fQ=="

/-- The base64 encoding of `slimText`. -/
def slimValue : String :=
  "eyJ0aW1lc3RhbXAiOjE2MDAwMDAwMDAwMDAsInRleHR1cmVzIjp7IlNLSU4iOnsidXJsIjoiaHR0cDovL3RleHR1cmVzLm1pbmVjcmFmdC5uZXQvdGV4dHVyZS9hMSIsIm1ldGFkYXRhIjp7Im1vZGVsIjoic2xpbSJ9fX19"

/-- A payload whose skin carries the model `classic`. -/
def classicPayload : JsVal :=
  .obj [("textures", .obj [("SKIN", .obj [("url", .str "http://textures.minecraft.net/texture/a1"),
    ("metadata", .obj [("model", .str "classic")])])])]

/-- The JSON text of `classicPayload`. -/
def classicText : String :=
  "\x7b\"textures\":\x7b\"SKIN\":\x7b\"url\":\"http://textures.minecraft.net/texture/a1\",\"metadata\":\x7b\"model\":\"classic\"\x7d\x7d\x7d\x7d"

/-- The base64 encoding of `classicText`. -/
def classicValue : String :=
  "eyJ0ZXh0dXJlcyI6eyJTS0lOIjp7InVybCI6Imh0dHA6Ly90ZXh0dXJlcy5taW5lY3JhZnQubmV0L3RleHR1cmUvYTEiLCJtZXRhZGF0YSI6eyJtb2RlbCI6ImNsYXNzaWMifX19fQ=="

/-- The decoding tables shared by the scripted worlds: `bm90IGpzb24=` is valid
base64 of a text that is not JSON. -/
def encodedTable : List (String × String) :=
  [(roundTripValue, roundTripText), (slimValue, slimText), ("bm90IGpzb24=", "not json"),
    (classicValue, classicText)]

/-- The JSON documents the scripted worlds can parse. -/
def documentTable : List (String × JsVal) :=
  [(roundTripText, roundTripPayload "X" "Y"), (slimText, slimPayload),
    (classicText, classicPayload)]

/-- A world in which `AsteroidsMC` exists and the session service serves a
profile whose first property carries `value`. -/
def knownWorld (value : String) : World :=
  scripted [(identityUrl "AsteroidsMC", identityBody), (sessionUrl exampleId, sessionProfile value)]
    encodedTable documentTable

/-- A world in which `AsteroidsMC` exists but its session profile has an empty
properties list. -/
def bareWorld : World :=
  scripted [(identityUrl "AsteroidsMC", identityBody), (sessionUrl exampleId, bareProfile)]
    encodedTable documentTable

/-- A world in which the identity service answers `nobody` with a JSON error
body, and no other request succeeds. -/
def unknownWorld : World :=
  scripted [(identityUrl "nobody", unknownBody)] encodedTable documentTable

/-- A world in which every request fails. -/
def offlineWorld : World :=
  scripted [] encodedTable documentTable

/-- A world in which the identity service answers `odd` with an id that is an
object carrying its own `toString` property. -/
def oddWorld : World :=
  scripted [(identityUrl "odd", .obj [("id", .obj [("toString", .num "1")]), ("name", .str "odd")])]
    encodedTable documentTable

/-! ## Basic facts about values -/

theorem arrayIndex_model : arrayIndex? "model" = none := by decide

theorem arrayIndex_metadata : arrayIndex? "metadata" = none := by decide

theorem arrayIndex_SKIN : arrayIndex? "SKIN" = none := by decide

theorem truthy_undefined : truthy .undefined = false := rfl

theorem truthy_bool (b : Bool) : truthy (.bool b) = b := rfl

theorem truthy_obj (fields : List (String × JsVal)) : truthy (.obj fields) = true := rfl

theorem strictEqStr_iff (v : JsVal) (lit : String) :
    strictEqStr v lit = true ↔ v = .str lit := by
  cases v <;> simp [strictEqStr]

/-- A value with an own property is an object, hence truthy. -/
theorem ownField_truthy (m : JsVal) (k : String) (x : JsVal)
    (h : ownField m k = some x) : truthy m = true := by
  cases m <;> simp [ownField] at h
  rfl

/-- A read of `model` on a truthy value never throws, and it compares equal to
`'slim'` exactly when the value is an object whose own `model` is that string. -/
theorem modelRead (m : JsVal) (hm : truthy m = true) :
    ∃ v, getProp m "model" = .ok v ∧
      (strictEqStr v "slim" = true ↔ ownField m "model" = some (.str "slim")) := by
  cases m with
  | undefined => simp [truthy] at hm
  | null => simp [truthy] at hm
  | bool b => exact ⟨.undefined, rfl, by simp [strictEqStr, ownField]⟩
  | num c => exact ⟨.undefined, rfl, by simp [strictEqStr, ownField]⟩
  | str s =>
    refine ⟨.undefined, ?_, by simp [strictEqStr, ownField]⟩
    simp [getProp, arrayIndex_model]
  | arr xs =>
    refine ⟨.undefined, ?_, by simp [strictEqStr, ownField]⟩
    simp [getProp, arrayIndex_model]
  | obj fields =>
    refine ⟨(fields.lookup "model").getD .undefined, rfl, ?_⟩
    rw [strictEqStr_iff]
    cases h : fields.lookup "model" <;> simp [ownField, h]

/-- A read of `metadata` on a truthy value never throws, and yields the own
property when there is one and `undefined` otherwise. -/
theorem metadataRead (s : JsVal) (hs : truthy s = true) :
    getProp s "metadata" = .ok ((ownField s "metadata").getD .undefined) := by
  cases s with
  | undefined => simp [truthy] at hs
  | null => simp [truthy] at hs
  | bool b => rfl
  | num c => rfl
  | str t => simp [getProp, arrayIndex_metadata, ownField]
  | arr xs => simp [getProp, arrayIndex_metadata, ownField]
  | obj fields => rfl

/-- The chain `SKIN && SKIN.metadata && SKIN.metadata.model === 'slim'` never
throws; its value is truthy only as the boolean `true`, and it is `true` exactly
when the chain of own properties ends in the string `slim`. -/
theorem slimChain_spec (SKIN : JsVal) :
    ∃ c, Index.slimChain SKIN = .ok c ∧ (truthy c = true → c = .bool true) ∧
      (c = .bool true ↔ ∃ metadata, ownField SKIN "metadata" = some metadata ∧
        ownField metadata "model" = some (.str "slim")) := by
  by_cases hs : truthy SKIN = true
  · have hread := metadataRead SKIN hs
    cases hl : ownField SKIN "metadata" with
    | none =>
      refine ⟨.undefined, ?_, by simp [truthy_undefined], by simp⟩
      simp [Index.slimChain, hs, hread, hl, truthy_undefined, bind, Except.bind, pure,
        Except.pure]
    | some m =>
      by_cases hm : truthy m = true
      · obtain ⟨v, hv, hiff⟩ := modelRead m hm
        refine ⟨.bool (strictEqStr v "slim"), ?_, ?_, ?_⟩
        · simp [Index.slimChain, hs, hread, hl, hm, hv, bind, Except.bind, pure, Except.pure]
        · intro h
          rw [truthy_bool] at h
          rw [h]
        · simp [hiff]
      · refine ⟨m, ?_, fun h => absurd h hm, ?_⟩
        · simp [Index.slimChain, hs, hread, hl, hm, bind, Except.bind, pure, Except.pure]
        · constructor
          · intro h
            rw [h, truthy_bool] at hm
            exact absurd rfl hm
          · rintro ⟨md, h1, h2⟩
            have h3 : truthy md = true := ownField_truthy md "model" _ h2
            have h4 : md = m := by simpa using h1.symm
            rw [h4] at h3
            exact absurd h3 hm
  · refine ⟨SKIN, ?_, fun h => absurd h hs, ?_⟩
    · simp [Index.slimChain, hs]
    · constructor
      · intro h
        rw [h, truthy_bool] at hs
        exact absurd rfl hs
      · rintro ⟨md, h1, _⟩
        exact absurd (ownField_truthy SKIN "metadata" _ h1) hs

/-- A bind resolves exactly when both of its stages do. -/
theorem bind_ok {α β : Type} (x : Except JsError α) (f : α → Except JsError β) (b : β) :
    (x >>= f) = .ok b ↔ ∃ a, x = .ok a ∧ f a = .ok b := by
  cases x <;> simp [bind, Except.bind]

/-- The flag computed by line 74 is a boolean, `true` exactly on the slim chain. -/
theorem isSlimOf_spec (SKIN : JsVal) :
    ∃ b, Index.isSlimOf SKIN = .ok (.bool b) ∧
      (b = true ↔ ∃ metadata, ownField SKIN "metadata" = some metadata ∧
        ownField metadata "model" = some (.str "slim")) := by
  obtain ⟨c, hc, htruthy, hiff⟩ := slimChain_spec SKIN
  by_cases ht : truthy c = true
  · refine ⟨true, ?_, ?_⟩
    · have hc2 := htruthy ht
      simp [Index.isSlimOf, hc, ht, hc2, truthy_bool, bind, Except.bind, pure, Except.pure]
    · simpa using hiff.mp (htruthy ht)
  · refine ⟨false, ?_, ?_⟩
    · simp [Index.isSlimOf, hc, ht, bind, Except.bind, pure, Except.pure]
    · constructor
      · intro h
        exact absurd h (by simp)
      · intro h
        have hc2 := hiff.mpr h
        rw [hc2, truthy_bool] at ht
        exact absurd rfl ht

/-- Reading `SKIN` off the texture map gives an object exactly when the map is an
object with that own property. -/
theorem skinRead (textures SKIN : JsVal) (h : getProp textures "SKIN" = .ok SKIN)
    (k : String) (x : JsVal) (hx : ownField SKIN k = some x) :
    ownField textures "SKIN" = some SKIN := by
  cases SKIN <;> simp [ownField] at hx
  rename_i fields
  cases textures with
  | undefined => simp [getProp] at h
  | null => simp [getProp] at h
  | bool b => simp [getProp] at h
  | num c => simp [getProp] at h
  | str s => simp [getProp, arrayIndex_SKIN] at h
  | arr xs => simp [getProp, arrayIndex_SKIN] at h
  | obj tf =>
    cases hl : tf.lookup "SKIN" with
    | none => simp [getProp, hl] at h
    | some y =>
      simp [getProp, hl] at h
      simp [ownField, hl, h]

/-- The slim chain on the value read as `SKIN` is the spec's chain on the map. -/
theorem slimModel_iff (textures SKIN : JsVal) (h : getProp textures "SKIN" = .ok SKIN) :
    SlimModel textures ↔ ∃ metadata, ownField SKIN "metadata" = some metadata ∧
      ownField metadata "model" = some (.str "slim") := by
  constructor
  · rintro ⟨skin, md, h1, h2, h3⟩
    have hs : getProp textures "SKIN" = .ok skin := by
      cases textures <;> simp [ownField] at h1
      simp [getProp, h1]
    rw [h] at hs
    cases hs
    exact ⟨md, h2, h3⟩
  · rintro ⟨md, h2, h3⟩
    exact ⟨SKIN, md, skinRead textures SKIN h "metadata" md h2, h2, h3⟩

/-- The record of lines 65-75, when it is built, carries the flag of line 74. -/
theorem buildRecord_isSlim (profile payload r : JsVal)
    (h : Index.buildRecord profile payload = .ok r) :
    ∃ textures SKIN isSlim, getProp payload "textures" = .ok textures ∧
      getProp textures "SKIN" = .ok SKIN ∧ Index.isSlimOf SKIN = .ok isSlim ∧
      getProp r "isSlim" = .ok isSlim := by
  simp only [Index.buildRecord, bind_ok] at h
  obtain ⟨ts, _, textures, h2, SKIN, h3, CAPE, _, uuid, _, username, _, skin, _, cape, _,
    isSlim, h9, h10⟩ := h
  refine ⟨textures, SKIN, isSlim, h2, h3, h9, ?_⟩
  simp only [pure, Except.pure, Except.ok.injEq] at h10
  subst h10
  simp [getProp, List.lookup]

/-- Whatever record the callback of index.js lines 64-76 builds, its isSlim is
the boolean true on the slim chain of the decoded textures and the boolean false
off it. -/
theorem built_record_isSlim (w : World) (profile r : JsVal)
    (h : Index.onProfile w profile = .ok r) :
    ∃ payload textures, Index.decodePayload w profile = .ok payload ∧
      getProp payload "textures" = .ok textures ∧
      (getProp r "isSlim" = .ok (.bool true) ↔ SlimModel textures) ∧
      (¬ SlimModel textures → getProp r "isSlim" = .ok (.bool false)) := by
  simp only [Index.onProfile, bind_ok] at h
  obtain ⟨payload, hp, hr⟩ := h
  obtain ⟨textures, SKIN, isSlim, ht, hs, hflag, hfield⟩ := buildRecord_isSlim profile payload r hr
  obtain ⟨b, hb, hiff⟩ := isSlimOf_spec SKIN
  rw [hb] at hflag
  cases hflag
  refine ⟨payload, textures, hp, ht, ?_, ?_⟩
  · rw [hfield, slimModel_iff textures SKIN hs, ← hiff]
    simp
  · intro hn
    rw [slimModel_iff textures SKIN hs, ← hiff] at hn
    rw [hfield]
    simp at hn
    rw [hn]

/-! ## The identity lookup and the URL operations -/

/-- An own property is what a read of it returns. -/
theorem getProp_of_ownField (v : JsVal) (k : String) (x : JsVal) (h : ownField v k = some x) :
    getProp v k = .ok x := by
  cases v <;> simp [ownField] at h
  simp [getProp, h]

/-- The lookup chain shared by `GetUUID` and the URL operations rejects only with
the error of its `.catch`. -/
theorem lookup_error (p : Settled) (e : JsError) (h : catchThrow p userNotFound = .error e) :
    e = userNotFound := by
  cases p <;> simp [catchThrow] at h
  exact h.symm

/-- C9: when the identity lookup returns a body whose id is the string i, GetUUID
returns i and the five URL operations return the image-service base followed by
their fixed path and i: /avatars/, /renders/body/, /renders/head/, /skins/ and
/capes/. -/
theorem url_templates (w : World) (name : String) (body : JsVal) (i : String)
    (hf : w.fetchJson (identityUrl name) = .ok body)
    (hid : ownField body "id" = some (.str i)) :
    Index.GetUUID w name = .ok (.str i) ∧
      Index.GetAvatar w name = .ok (.str ("https://crafatar.com" ++ "/avatars/" ++ i)) ∧
      Index.GetSkinRenderedBody w name =
        .ok (.str ("https://crafatar.com" ++ "/renders/body/" ++ i)) ∧
      Index.GetSkinRenderedHead w name =
        .ok (.str ("https://crafatar.com" ++ "/renders/head/" ++ i)) ∧
      Index.GetSkin w name = .ok (.str ("https://crafatar.com" ++ "/skins/" ++ i)) ∧
      Index.GetCape w name = .ok (.str ("https://crafatar.com" ++ "/capes/" ++ i)) := by
  have hg := getProp_of_ownField body "id" _ hid
  refine ⟨?_, ?_, ?_, ?_, ?_, ?_⟩
  · simp [Index.GetUUID, hf, hg, catchThrow, bind, Except.bind]
  · simp [Index.GetAvatar, hf, hg, catchThrow, toStr, bind, Except.bind, pure, Except.pure]
  · simp [Index.GetSkinRenderedBody, hf, hg, catchThrow, toStr, bind, Except.bind, pure,
      Except.pure]
  · simp [Index.GetSkinRenderedHead, hf, hg, catchThrow, toStr, bind, Except.bind, pure,
      Except.pure]
  · simp [Index.GetSkin, hf, hg, catchThrow, toStr, bind, Except.bind, pure, Except.pure]
  · simp [Index.GetCape, hf, hg, catchThrow, toStr, bind, Except.bind, pure, Except.pure]

/-- Witness for C9: the player of the documentation's examples. -/
theorem url_templates_witness :
    Index.GetUUID (knownWorld slimValue) "AsteroidsMC" = .ok (.str exampleId) ∧
      Index.GetAvatar (knownWorld slimValue) "AsteroidsMC" =
        .ok (.str ("https://crafatar.com" ++ "/avatars/" ++ exampleId)) ∧
      Index.GetSkinRenderedBody (knownWorld slimValue) "AsteroidsMC" =
        .ok (.str ("https://crafatar.com" ++ "/renders/body/" ++ exampleId)) ∧
      Index.GetSkinRenderedHead (knownWorld slimValue) "AsteroidsMC" =
        .ok (.str ("https://crafatar.com" ++ "/renders/head/" ++ exampleId)) ∧
      Index.GetSkin (knownWorld slimValue) "AsteroidsMC" =
        .ok (.str ("https://crafatar.com" ++ "/skins/" ++ exampleId)) ∧
      Index.GetCape (knownWorld slimValue) "AsteroidsMC" =
        .ok (.str ("https://crafatar.com" ++ "/capes/" ++ exampleId)) :=
  url_templates (knownWorld slimValue) "AsteroidsMC" identityBody exampleId (by rfl) (by rfl)

/-- A read that succeeds for one key succeeds for every key: only `undefined`
and `null` refuse reads. -/
theorem getProp_ok_other (v : JsVal) (k k2 : String) (x : JsVal) (h : getProp v k = .ok x) :
    ∃ y, getProp v k2 = .ok y := by
  cases v with
  | undefined => simp [getProp] at h
  | null => simp [getProp] at h
  | bool b => exact ⟨_, rfl⟩
  | num c => exact ⟨_, rfl⟩
  | obj fields => exact ⟨_, rfl⟩
  | arr xs =>
    simp only [getProp]
    split <;> exact ⟨_, rfl⟩
  | str s =>
    simp only [getProp]
    split
    · split <;> exact ⟨_, rfl⟩
    · exact ⟨_, rfl⟩

/-- A read that throws for one key throws for every key. -/
theorem getProp_error_other (v : JsVal) (k k2 : String) (e : JsError)
    (h : getProp v k = .error e) : getProp v k2 = .error e := by
  cases v with
  | undefined => simpa [getProp] using h
  | null => simpa [getProp] using h
  | bool b => simp [getProp] at h
  | num c => simp [getProp] at h
  | obj fields => simp [getProp] at h
  | arr xs =>
    simp only [getProp] at h
    split at h <;> simp at h
  | str s =>
    simp only [getProp] at h
    split at h
    · split at h <;> simp at h
    · simp at h

/-- The two avatar paths differ whatever id follows them. -/
theorem avatar_paths_differ (i : String) :
    "https://crafatar.com/avatar/" ++ i ≠ "https://crafatar.com/avatars/" ++ i := by
  intro h
  have hl := congrArg String.length h
  simp only [String.length_append] at hl
  have h1 : String.length "https://crafatar.com/avatar/" = 28 := by decide
  have h2 : String.length "https://crafatar.com/avatars/" = 29 := by decide
  omega

/-- A URL operation whose lookup chain resolved is its prefix followed by the
string conversion of the id. -/
theorem urlOp_ok (p : Settled) (v : JsVal) (pre : String) (h : p = .ok v) :
    (p >>= fun id => toStr id >>= fun text => pure (JsVal.str (pre ++ text))) =
      (toStr v).map (fun t => JsVal.str (pre ++ t)) := by
  subst h
  cases hv : toStr v <;> simp [bind, Except.bind, Except.map, pure, Except.pure, hv]

/-- A URL operation whose lookup chain rejected rejects with the same error. -/
theorem urlOp_error (p : Settled) (e : JsError) (pre : String) (h : p = .error e) :
    (p >>= fun id => toStr id >>= fun text => pure (JsVal.str (pre ++ text))) = .error e := by
  subst h
  rfl

/-- How the six derived operations follow the lookup, whatever the body:
whenever GetUUID fails, its error is the TypeError User not found and the six
fail with that same error; whenever GetUUID resolves with a value, GetData
resolves too, and each URL operation is its prefix followed by the string
conversion of that value. -/
theorem derived_ops_follow_lookup (w : World) (name : String) :
    (∀ e, Index.GetUUID w name = .error e →
      e = userNotFound ∧ Index.GetSkin w name = .error e ∧
        Index.GetSkinRenderedBody w name = .error e ∧
        Index.GetSkinRenderedHead w name = .error e ∧
        Index.GetCape w name = .error e ∧ Index.GetAvatar w name = .error e ∧
        Index.GetData w name = .error e) ∧
    (∀ v, Index.GetUUID w name = .ok v →
      (∃ d, Index.GetData w name = .ok d) ∧
        Index.GetSkin w name =
          (toStr v).map (fun t => .str ("https://crafatar.com/skins/" ++ t)) ∧
        Index.GetSkinRenderedBody w name =
          (toStr v).map (fun t => .str ("https://crafatar.com/renders/body/" ++ t)) ∧
        Index.GetSkinRenderedHead w name =
          (toStr v).map (fun t => .str ("https://crafatar.com/renders/head/" ++ t)) ∧
        Index.GetCape w name =
          (toStr v).map (fun t => .str ("https://crafatar.com/capes/" ++ t)) ∧
        Index.GetAvatar w name =
          (toStr v).map (fun t => .str ("https://crafatar.com/avatars/" ++ t))) := by
  constructor
  · intro e h
    have he : e = userNotFound := lookup_error _ e h
    subst he
    unfold Index.GetUUID at h
    refine ⟨rfl, urlOp_error _ _ _ h, urlOp_error _ _ _ h, urlOp_error _ _ _ h,
      urlOp_error _ _ _ h, urlOp_error _ _ _ h, ?_⟩
    cases hf : w.fetchJson (identityUrl name) with
    | error e0 => simp [Index.GetData, hf, catchThrow, bind, Except.bind]
    | ok body =>
      cases hg : getProp body "id" with
      | ok x => simp [hf, hg, catchThrow, bind, Except.bind] at h
      | error e1 =>
        have hn := getProp_error_other body "id" "name" e1 hg
        simp [Index.GetData, hf, hn, catchThrow, bind, Except.bind]
  · intro v h
    unfold Index.GetUUID at h
    refine ⟨?_, urlOp_ok _ _ _ h, urlOp_ok _ _ _ h, urlOp_ok _ _ _ h, urlOp_ok _ _ _ h,
      urlOp_ok _ _ _ h⟩
    cases hf : w.fetchJson (identityUrl name) with
    | error e0 => simp [hf, catchThrow, bind, Except.bind] at h
    | ok body =>
      cases hg : getProp body "id" with
      | error e1 => simp [hf, hg, catchThrow, bind, Except.bind] at h
      | ok x =>
        obtain ⟨n, hn⟩ := getProp_ok_other body "id" "name" x hg
        refine ⟨.obj [("username", n), ("uuid", x)], ?_⟩
        simp [Index.GetData, hf, hg, hn, catchThrow, bind, Except.bind, pure, Except.pure]

/-- Why `IdIsText` is assumed below: on a body whose id is an object with an own
toString property, GetUUID resolves with that object, yet GetSkin and GetAvatar
fail with the conversion's TypeError. -/
theorem url_op_fails_where_lookup_resolves :
    Index.GetUUID oddWorld "odd" = .ok (.obj [("toString", .num "1")]) ∧
      Index.GetSkin oddWorld "odd" = .error toPrimitiveError ∧
      Index.GetAvatar oddWorld "odd" = .error toPrimitiveError ∧
      toPrimitiveError ≠ userNotFound :=
  ⟨by rfl, by rfl, by rfl, by decide⟩

/-- A lookup that resolved read its value off a body. -/
theorem lookup_ok_body (w : World) (name : String) (v : JsVal)
    (h : Index.GetUUID w name = .ok v) :
    ∃ body, w.fetchJson (identityUrl name) = .ok body ∧ getProp body "id" = .ok v := by
  unfold Index.GetUUID at h
  cases hf : w.fetchJson (identityUrl name) with
  | error e0 => simp [hf, catchThrow, bind, Except.bind] at h
  | ok body =>
    cases hg : getProp body "id" with
    | error e1 => simp [hf, hg, catchThrow, bind, Except.bind] at h
    | ok x =>
      simp [hf, hg, catchThrow, bind, Except.bind] at h
      exact ⟨body, rfl, by rw [hg, h]⟩

/-- An id that is a string or absent converts to a string. -/
theorem toStr_text (v : JsVal) (h : v = .undefined ∨ ∃ s, v = .str s) :
    ∃ t, toStr v = .ok t := by
  rcases h with h | ⟨s, h⟩
  · exact ⟨"undefined", by rw [h]; rfl⟩
  · exact ⟨s, by rw [h]; rfl⟩

/-- A URL operation fails with an error exactly when the lookup fails with it,
once the id converts to a string whenever the lookup resolves. -/
theorem urlOp_error_iff (w : World) (name : String) (op : Settled) (pre : String)
    (hid : IdIsText w name)
    (herr : ∀ e, Index.GetUUID w name = .error e → op = .error e)
    (hok : ∀ v, Index.GetUUID w name = .ok v →
      op = (toStr v).map (fun t => JsVal.str (pre ++ t)))
    (e : JsError) : op = .error e ↔ Index.GetUUID w name = .error e := by
  constructor
  · intro h
    cases hG : Index.GetUUID w name with
    | error e2 =>
      have h2 := herr e2 hG
      rw [h] at h2
      cases h2
      rfl
    | ok v =>
      obtain ⟨body, hb, hv⟩ := lookup_ok_body w name v hG
      obtain ⟨t, ht⟩ := toStr_text v (hid body v hb hv)
      have h2 := hok v hG
      rw [ht, h] at h2
      simp [Except.map] at h2
  · exact herr e

/-- C8: for every username and every outcome of the identity lookup in which the
body's id, when there is one, is a string, each of GetSkin, GetSkinRenderedBody,
GetSkinRenderedHead, GetCape, GetAvatar and GetData fails with an error exactly
when GetUUID fails with that error, and that error is the TypeError User not
found; none of them replaces the failure by a value. -/
theorem derived_ops_fail_exactly_with_lookup (w : World) (name : String)
    (hid : IdIsText w name) :
    (∀ e, Index.GetUUID w name = .error e → e = userNotFound) ∧
      (∀ e, Index.GetSkin w name = .error e ↔ Index.GetUUID w name = .error e) ∧
      (∀ e, Index.GetSkinRenderedBody w name = .error e ↔ Index.GetUUID w name = .error e) ∧
      (∀ e, Index.GetSkinRenderedHead w name = .error e ↔ Index.GetUUID w name = .error e) ∧
      (∀ e, Index.GetCape w name = .error e ↔ Index.GetUUID w name = .error e) ∧
      (∀ e, Index.GetAvatar w name = .error e ↔ Index.GetUUID w name = .error e) ∧
      (∀ e, Index.GetData w name = .error e ↔ Index.GetUUID w name = .error e) := by
  obtain ⟨herr, hok⟩ := derived_ops_follow_lookup w name
  refine ⟨fun e h => (herr e h).1, ?_, ?_, ?_, ?_, ?_, ?_⟩
  · exact urlOp_error_iff w name _ _ hid (fun e h => (herr e h).2.1) (fun v h => (hok v h).2.1)
  · exact urlOp_error_iff w name _ _ hid (fun e h => (herr e h).2.2.1)
      (fun v h => (hok v h).2.2.1)
  · exact urlOp_error_iff w name _ _ hid (fun e h => (herr e h).2.2.2.1)
      (fun v h => (hok v h).2.2.2.1)
  · exact urlOp_error_iff w name _ _ hid (fun e h => (herr e h).2.2.2.2.1)
      (fun v h => (hok v h).2.2.2.2.1)
  · exact urlOp_error_iff w name _ _ hid (fun e h => (herr e h).2.2.2.2.2.1)
      (fun v h => (hok v h).2.2.2.2.2)
  · intro e
    constructor
    · intro h
      cases hG : Index.GetUUID w name with
      | error e2 =>
        have h2 := (herr e2 hG).2.2.2.2.2.2
        rw [h] at h2
        cases h2
        rfl
      | ok v =>
        obtain ⟨d, hd⟩ := (hok v hG).1
        rw [h] at hd
        cases hd
    · intro h
      exact (herr e h).2.2.2.2.2.2

/-- The scripted world of the documentation's player keeps the id contract. -/
theorem knownWorld_idIsText (value : String) : IdIsText (knownWorld value) "AsteroidsMC" := by
  intro body v hb hv
  have h0 : (knownWorld value).fetchJson (identityUrl "AsteroidsMC") = .ok identityBody := by rfl
  rw [h0] at hb
  cases hb
  have h1 : getProp identityBody "id" = .ok (.str exampleId) := by rfl
  rw [h1] at hv
  cases hv
  exact Or.inr ⟨exampleId, rfl⟩

/-- A world in which every request fails keeps the id contract. -/
theorem offlineWorld_idIsText (name : String) : IdIsText offlineWorld name := by
  intro body v hb _
  have h0 : offlineWorld.fetchJson (identityUrl name) =
      .error ⟨"FetchError", "request failed"⟩ := by rfl
  rw [h0] at hb
  cases hb

/-- Witness for C8: with every request failing, GetUUID and GetSkin reject with
User not found and the six equivalences hold; for the documentation's player
GetUUID resolves and the equivalences hold as well. -/
theorem derived_ops_fail_exactly_with_lookup_witness :
    (Index.GetUUID offlineWorld "AsteroidsMC" = .error userNotFound ∧
      Index.GetSkin offlineWorld "AsteroidsMC" = .error userNotFound ∧
      Index.GetData offlineWorld "AsteroidsMC" = .error userNotFound ∧
      Index.GetUUID (knownWorld slimValue) "AsteroidsMC" = .ok (.str exampleId)) ∧
    ((∀ e, Index.GetUUID offlineWorld "AsteroidsMC" = .error e → e = userNotFound) ∧
      (∀ e, Index.GetSkin offlineWorld "AsteroidsMC" = .error e ↔
        Index.GetUUID offlineWorld "AsteroidsMC" = .error e) ∧
      (∀ e, Index.GetSkinRenderedBody offlineWorld "AsteroidsMC" = .error e ↔
        Index.GetUUID offlineWorld "AsteroidsMC" = .error e) ∧
      (∀ e, Index.GetSkinRenderedHead offlineWorld "AsteroidsMC" = .error e ↔
        Index.GetUUID offlineWorld "AsteroidsMC" = .error e) ∧
      (∀ e, Index.GetCape offlineWorld "AsteroidsMC" = .error e ↔
        Index.GetUUID offlineWorld "AsteroidsMC" = .error e) ∧
      (∀ e, Index.GetAvatar offlineWorld "AsteroidsMC" = .error e ↔
        Index.GetUUID offlineWorld "AsteroidsMC" = .error e) ∧
      (∀ e, Index.GetData offlineWorld "AsteroidsMC" = .error e ↔
        Index.GetUUID offlineWorld "AsteroidsMC" = .error e)) ∧
    ((∀ e, Index.GetUUID (knownWorld slimValue) "AsteroidsMC" = .error e → e = userNotFound) ∧
      (∀ e, Index.GetSkin (knownWorld slimValue) "AsteroidsMC" = .error e ↔
        Index.GetUUID (knownWorld slimValue) "AsteroidsMC" = .error e) ∧
      (∀ e, Index.GetSkinRenderedBody (knownWorld slimValue) "AsteroidsMC" = .error e ↔
        Index.GetUUID (knownWorld slimValue) "AsteroidsMC" = .error e) ∧
      (∀ e, Index.GetSkinRenderedHead (knownWorld slimValue) "AsteroidsMC" = .error e ↔
        Index.GetUUID (knownWorld slimValue) "AsteroidsMC" = .error e) ∧
      (∀ e, Index.GetCape (knownWorld slimValue) "AsteroidsMC" = .error e ↔
        Index.GetUUID (knownWorld slimValue) "AsteroidsMC" = .error e) ∧
      (∀ e, Index.GetAvatar (knownWorld slimValue) "AsteroidsMC" = .error e ↔
        Index.GetUUID (knownWorld slimValue) "AsteroidsMC" = .error e) ∧
      (∀ e, Index.GetData (knownWorld slimValue) "AsteroidsMC" = .error e ↔
        Index.GetUUID (knownWorld slimValue) "AsteroidsMC" = .error e)) :=
  ⟨⟨by rfl, by rfl, by rfl, by rfl⟩,
    derived_ops_fail_exactly_with_lookup offlineWorld "AsteroidsMC"
      (offlineWorld_idIsText "AsteroidsMC"),
    derived_ops_fail_exactly_with_lookup (knownWorld slimValue) "AsteroidsMC"
      (knownWorld_idIsText slimValue)⟩

/-- C10: on an identity body whose id is the string i, the helper of
Bin/GetAvatar.js returns the image-service base followed by /avatar/ and i,
while GetAvatar of index.js returns the base followed by /avatars/ and i; the
two URLs differ for every i. -/
theorem bin_avatar_path_differs (w : World) (name : String) (body : JsVal) (i : String)
    (hf : w.fetchJson (identityUrl name) = .ok body)
    (hid : ownField body "id" = some (.str i)) :
    (Bin.GetAvatar w name).result = .ok (.str ("https://crafatar.com/avatar/" ++ i)) ∧
      Index.GetAvatar w name = .ok (.str ("https://crafatar.com/avatars/" ++ i)) ∧
      (Bin.GetAvatar w name).result ≠ Index.GetAvatar w name := by
  have hg := getProp_of_ownField body "id" _ hid
  have h1 : (Bin.GetAvatar w name).result =
      .ok (.str ("https://crafatar.com/avatar/" ++ i)) := by
    simp [Bin.GetAvatar, Bin.fetchOrLog, hf, hg, toStr, bind, Except.bind, pure, Except.pure]
  have h2 : Index.GetAvatar w name = .ok (.str ("https://crafatar.com/avatars/" ++ i)) := by
    simp [Index.GetAvatar, hf, hg, catchThrow, toStr, bind, Except.bind, pure, Except.pure]
  refine ⟨h1, h2, ?_⟩
  rw [h1, h2]
  intro h
  simp only [Except.ok.injEq, JsVal.str.injEq] at h
  exact avatar_paths_differ i h

/-- Witness for C10: the player of the documentation's examples. -/
theorem bin_avatar_path_differs_witness :
    (Bin.GetAvatar (knownWorld slimValue) "AsteroidsMC").result =
        .ok (.str ("https://crafatar.com/avatar/" ++ exampleId)) ∧
      Index.GetAvatar (knownWorld slimValue) "AsteroidsMC" =
        .ok (.str ("https://crafatar.com/avatars/" ++ exampleId)) ∧
      (Bin.GetAvatar (knownWorld slimValue) "AsteroidsMC").result ≠
        Index.GetAvatar (knownWorld slimValue) "AsteroidsMC" :=
  bin_avatar_path_differs (knownWorld slimValue) "AsteroidsMC" identityBody exampleId
    (by rfl) (by rfl)

/-- C4: when the identity lookup succeeds with a JSON object that has no id
field, the operations of index.js do not fail: GetUUID resolves with undefined,
the five URL operations resolve with their prefix followed by the text
undefined, GetData resolves with a record whose uuid is undefined, and
GetProfile goes on to ask the session service for the id undefined. -/
theorem missing_id_is_not_an_error (w : World) (name : String)
    (fields : List (String × JsVal))
    (hf : w.fetchJson (identityUrl name) = .ok (.obj fields))
    (hid : fields.lookup "id" = none) :
    Index.GetUUID w name = .ok .undefined ∧
      Index.GetSkin w name = .ok (.str "https://crafatar.com/skins/undefined") ∧
      Index.GetSkinRenderedBody w name =
        .ok (.str "https://crafatar.com/renders/body/undefined") ∧
      Index.GetSkinRenderedHead w name =
        .ok (.str "https://crafatar.com/renders/head/undefined") ∧
      Index.GetCape w name = .ok (.str "https://crafatar.com/capes/undefined") ∧
      Index.GetAvatar w name = .ok (.str "https://crafatar.com/avatars/undefined") ∧
      Index.GetData w name =
        .ok (.obj [("username", (fields.lookup "name").getD .undefined),
          ("uuid", .undefined)]) ∧
      Index.GetProfile w name =
        catchThrow (Index.profileStage w "undefined" >>= fun _ => .ok .undefined)
          invalidUsername := by
  have hg : getProp (.obj fields) "id" = .ok .undefined := by simp [getProp, hid]
  refine ⟨?_, ?_, ?_, ?_, ?_, ?_, ?_, ?_⟩
  · simp [Index.GetUUID, hf, hg, catchThrow, bind, Except.bind]
  · simp [Index.GetSkin, hf, hg, catchThrow, toStr, bind, Except.bind, pure, Except.pure]
  · simp [Index.GetSkinRenderedBody, hf, hg, catchThrow, toStr, bind, Except.bind, pure,
      Except.pure]
  · simp [Index.GetSkinRenderedHead, hf, hg, catchThrow, toStr, bind, Except.bind, pure,
      Except.pure]
  · simp [Index.GetCape, hf, hg, catchThrow, toStr, bind, Except.bind, pure, Except.pure]
  · simp [Index.GetAvatar, hf, hg, catchThrow, toStr, bind, Except.bind, pure, Except.pure]
  · simp [Index.GetData, hf, hid, getProp, catchThrow, bind, Except.bind, pure, Except.pure]
  · simp [Index.GetProfile, Index.onUuid, hf, hg, toStr, bind, Except.bind, pure, Except.pure]

/-- Witness for C4: the name `nobody`, answered with a JSON error body; no other
request succeeds there, so GetProfile ends in its outer error. -/
theorem missing_id_is_not_an_error_witness :
    (Index.GetUUID unknownWorld "nobody" = .ok .undefined ∧
      Index.GetSkin unknownWorld "nobody" = .ok (.str "https://crafatar.com/skins/undefined") ∧
      Index.GetSkinRenderedBody unknownWorld "nobody" =
        .ok (.str "https://crafatar.com/renders/body/undefined") ∧
      Index.GetSkinRenderedHead unknownWorld "nobody" =
        .ok (.str "https://crafatar.com/renders/head/undefined") ∧
      Index.GetCape unknownWorld "nobody" = .ok (.str "https://crafatar.com/capes/undefined") ∧
      Index.GetAvatar unknownWorld "nobody" =
        .ok (.str "https://crafatar.com/avatars/undefined") ∧
      Index.GetData unknownWorld "nobody" =
        .ok (.obj [("username", (unknownFields.lookup "name").getD .undefined),
          ("uuid", .undefined)]) ∧
      Index.GetProfile unknownWorld "nobody" =
        catchThrow (Index.profileStage unknownWorld "undefined" >>= fun _ => .ok .undefined)
          invalidUsername) ∧
      Index.GetProfile unknownWorld "nobody" = .error invalidUsername :=
  ⟨missing_id_is_not_an_error unknownWorld "nobody" unknownFields (by rfl) (by rfl), by rfl⟩

/-! ## The profile of `src/index.js` -/

theorem arrayIndex_CAPE : arrayIndex? "CAPE" = none := by decide

/-- A read of a named key the value does not own gives `undefined`. -/
theorem getProp_absent (v : JsVal) (k : String) (x : JsVal) (hk : arrayIndex? k = none)
    (hv : ownField v k = none) (h : getProp v k = .ok x) : x = .undefined := by
  cases v with
  | undefined => simp [getProp] at h
  | null => simp [getProp] at h
  | bool b => simpa [getProp] using h.symm
  | num c => simpa [getProp] using h.symm
  | str s => simpa [getProp, hk] using h.symm
  | arr xs => simpa [getProp, hk] using h.symm
  | obj fields =>
    have hl : fields.lookup k = none := hv
    simp only [getProp, hl, Option.getD_none, Except.ok.injEq] at h
    exact h.symm

/-- The record of lines 65-75, when it is built, carries the cape of line 73. -/
theorem buildRecord_cape (profile payload r : JsVal)
    (h : Index.buildRecord profile payload = .ok r) :
    ∃ textures CAPE cape, getProp payload "textures" = .ok textures ∧
      getProp textures "CAPE" = .ok CAPE ∧ Index.capeOf CAPE = .ok cape ∧
      getProp r "cape" = .ok cape := by
  simp only [Index.buildRecord, bind_ok] at h
  obtain ⟨ts, _, textures, h2, SKIN, _, CAPE, h4, uuid, _, username, _, skin, _, cape, h8,
    isSlim, _, h10⟩ := h
  refine ⟨textures, CAPE, cape, h2, h4, h8, ?_⟩
  simp only [pure, Except.pure, Except.ok.injEq] at h10
  subst h10
  simp [getProp, List.lookup]

/-- C3: whenever the callback of index.js lines 64-76 builds a record from a
payload whose textures have no CAPE entry, the record's cape is the string
`No cape found`, which is not the documented `No Cape Found`. -/
theorem cape_sentinel_is_lowercase (w : World) (profile r payload textures : JsVal)
    (h : Index.onProfile w profile = .ok r)
    (hp : Index.decodePayload w profile = .ok payload)
    (ht : getProp payload "textures" = .ok textures)
    (hc : ownField textures "CAPE" = none) :
    getProp r "cape" = .ok (.str "No cape found") ∧
      JsVal.str "No cape found" ≠ JsVal.str "No Cape Found" := by
  simp only [Index.onProfile, hp, bind, Except.bind] at h
  obtain ⟨textures2, CAPE, cape, ht2, hC, hcape, hfield⟩ := buildRecord_cape profile payload r h
  rw [ht] at ht2
  cases ht2
  have hu := getProp_absent textures "CAPE" CAPE arrayIndex_CAPE hc hC
  subst hu
  have : cape = .str "No cape found" := by
    simpa [Index.capeOf, truthy, bind, Except.bind, pure, Except.pure] using hcape.symm
  subst this
  exact ⟨hfield, by simp⟩

/-- Witness for C3: the scripted profile with a skin and no cape. -/
theorem cape_sentinel_is_lowercase_witness :
    getProp (.obj [("timestamp", .num "1600000000000"), ("uuid", .str exampleId),
        ("username", .str "AsteroidsMC"),
        ("skin", .str "http://textures.minecraft.net/texture/a1"),
        ("cape", .str "No cape found"), ("isSlim", .bool true)]) "cape" =
        .ok (.str "No cape found") ∧
      JsVal.str "No cape found" ≠ JsVal.str "No Cape Found" :=
  cape_sentinel_is_lowercase (knownWorld slimValue) (sessionProfile slimValue) _ slimPayload
    (.obj [("SKIN", .obj [("url", .str "http://textures.minecraft.net/texture/a1"),
      ("metadata", .obj [("model", .str "slim")])])])
    (show Index.onProfile (knownWorld slimValue) (sessionProfile slimValue) =
      .ok (.obj [("timestamp", .num "1600000000000"), ("uuid", .str exampleId),
        ("username", .str "AsteroidsMC"),
        ("skin", .str "http://textures.minecraft.net/texture/a1"),
        ("cape", .str "No cape found"), ("isSlim", .bool true)]) by rfl)
    (by rfl) (by rfl) (by rfl)

/-- The promise returned by GetProfile of index.js never carries a record: it
resolves with `undefined` or rejects with the error of the outer `.catch`. -/
theorem getProfile_outcomes (w : World) (name : String) :
    Index.GetProfile w name = .ok .undefined ∨
      Index.GetProfile w name = .error invalidUsername := by
  unfold Index.GetProfile
  cases hf : w.fetchJson (identityUrl name) with
  | error e => right; rfl
  | ok body =>
    cases h1 : getProp body "id" with
    | error e => right; simp [Index.onUuid, h1, catchThrow, bind, Except.bind]
    | ok id =>
      cases h2 : toStr id with
      | error e => right; simp [Index.onUuid, h1, h2, catchThrow, bind, Except.bind]
      | ok t =>
        cases h3 : Index.profileStage w t with
        | error e =>
          right; simp [Index.onUuid, h1, h2, h3, catchThrow, bind, Except.bind]
        | ok r =>
          left
          simp [Index.onUuid, h1, h2, h3, catchThrow, bind, Except.bind, pure, Except.pure]

/-- The record of lines 65-75, when it is built, names the session profile's id
and name. -/
theorem buildRecord_identity (profile payload r : JsVal)
    (h : Index.buildRecord profile payload = .ok r) :
    getProp r "uuid" = getProp profile "id" ∧ getProp r "username" = getProp profile "name" := by
  simp only [Index.buildRecord, bind_ok] at h
  obtain ⟨ts, _, textures, _, SKIN, _, CAPE, _, uuid, h5, username, h6, skin, _, cape, _,
    isSlim, _, h10⟩ := h
  simp only [pure, Except.pure, Except.ok.injEq] at h10
  subst h10
  rw [h5, h6]
  exact ⟨by rfl, by rfl⟩

/-- C5: when the identity lookup returns a body whose id is the string i and the
session service returns a profile from which the callback builds the record r,
that record carries the session profile's id as uuid and its name as username
and the session-profile stage resolves with it, but GetProfile resolves with
undefined: the record is not what the promise carries. -/
theorem getProfile_drops_record (w : World) (name : String) (body : JsVal) (i : String)
    (profile r : JsVal)
    (hf : w.fetchJson (identityUrl name) = .ok body)
    (hid : ownField body "id" = some (.str i))
    (hs : w.fetchJson (sessionUrl i) = .ok profile)
    (hr : Index.onProfile w profile = .ok r) :
    getProp r "uuid" = getProp profile "id" ∧
      getProp r "username" = getProp profile "name" ∧
      Index.profileStage w i = .ok r ∧ Index.GetProfile w name = .ok .undefined := by
  have hg := getProp_of_ownField body "id" _ hid
  have hstage : Index.profileStage w i = .ok r := by
    simp [Index.profileStage, hs, hr, catchThrow, bind, Except.bind]
  have hrec : ∃ payload, Index.buildRecord profile payload = .ok r := by
    simp only [Index.onProfile, bind_ok] at hr
    obtain ⟨payload, _, hb⟩ := hr
    exact ⟨payload, hb⟩
  obtain ⟨payload, hb⟩ := hrec
  obtain ⟨hu, hn⟩ := buildRecord_identity profile payload r hb
  refine ⟨hu, hn, hstage, ?_⟩
  simp [Index.GetProfile, Index.onUuid, hf, hg, toStr, hstage, catchThrow, bind, Except.bind,
    pure, Except.pure]

/-- Witness for C5: the player of the documentation's examples, with a
well-formed session profile. -/
theorem getProfile_drops_record_witness :
    getProp (.obj [("timestamp", .num "1600000000000"), ("uuid", .str exampleId),
        ("username", .str "AsteroidsMC"),
        ("skin", .str "http://textures.minecraft.net/texture/a1"),
        ("cape", .str "No cape found"), ("isSlim", .bool true)]) "uuid" =
        getProp (sessionProfile slimValue) "id" ∧
      getProp (.obj [("timestamp", .num "1600000000000"), ("uuid", .str exampleId),
        ("username", .str "AsteroidsMC"),
        ("skin", .str "http://textures.minecraft.net/texture/a1"),
        ("cape", .str "No cape found"), ("isSlim", .bool true)]) "username" =
        getProp (sessionProfile slimValue) "name" ∧
      Index.profileStage (knownWorld slimValue) exampleId =
        .ok (.obj [("timestamp", .num "1600000000000"), ("uuid", .str exampleId),
          ("username", .str "AsteroidsMC"),
          ("skin", .str "http://textures.minecraft.net/texture/a1"),
          ("cape", .str "No cape found"), ("isSlim", .bool true)]) ∧
      Index.GetProfile (knownWorld slimValue) "AsteroidsMC" = .ok .undefined :=
  getProfile_drops_record (knownWorld slimValue) "AsteroidsMC" identityBody exampleId
    (sessionProfile slimValue) _ (by rfl) (by rfl) (by rfl) (by rfl)

/-- When the identity request itself fails, every operation of index.js that
starts from it rejects: GetProfile with the error of its outer catch, the others
with User not found. -/
theorem identity_failure_rejects_all (w : World) (name : String) (e : JsError)
    (hf : w.fetchJson (identityUrl name) = .error e) :
    Index.GetUUID w name = .error userNotFound ∧
      Index.GetSkin w name = .error userNotFound ∧
      Index.GetSkinRenderedBody w name = .error userNotFound ∧
      Index.GetSkinRenderedHead w name = .error userNotFound ∧
      Index.GetCape w name = .error userNotFound ∧
      Index.GetAvatar w name = .error userNotFound ∧
      Index.GetData w name = .error userNotFound ∧
      Index.GetProfile w name = .error invalidUsername := by
  refine ⟨?_, ?_, ?_, ?_, ?_, ?_, ?_, ?_⟩ <;>
    simp [Index.GetUUID, Index.GetSkin, Index.GetSkinRenderedBody, Index.GetSkinRenderedHead,
      Index.GetCape, Index.GetAvatar, Index.GetData, Index.GetProfile, hf, catchThrow, bind,
      Except.bind]

theorem arrayIndex_properties : arrayIndex? "properties" = none := by decide

theorem arrayIndex_zero : arrayIndex? "0" = some 0 := by decide

theorem getProp_undefined (k : String) :
    getProp .undefined k = .error (readError "undefined") := rfl

theorem getProp_nil_zero : getProp (.arr []) "0" = .ok .undefined := by
  simp [getProp, arrayIndex_zero]

/-- A session profile with a missing or empty properties list makes line 65
throw before any decoding: `properties[0]` is `undefined`, or cannot be read. -/
theorem decodePayload_throws (w : World) (profile : JsVal)
    (hp : ownField profile "properties" = none ∨
      ownField profile "properties" = some (.arr [])) :
    ∃ e, Index.decodePayload w profile = .error e := by
  rcases hp with hp | hp
  · cases h1 : getProp profile "properties" with
    | error e => exact ⟨e, by simp [Index.decodePayload, h1, bind, Except.bind]⟩
    | ok x =>
      have hx := getProp_absent profile "properties" x arrayIndex_properties hp h1
      subst hx
      exact ⟨readError "undefined",
        by simp [Index.decodePayload, h1, getProp_undefined, bind, Except.bind]⟩
  · have h1 := getProp_of_ownField profile "properties" _ hp
    exact ⟨readError "undefined",
      by simp [Index.decodePayload, h1, getProp_nil_zero, getProp_undefined, bind, Except.bind]⟩

/-- C6: when the identity lookup succeeds and the session profile has a missing
or empty properties list, the session-profile stage raises the error Profile
not found or user not found, but GetProfile rejects with the error Invaild
username of its outer catch, the same error it gives when the identity lookup
itself fails. -/
theorem profile_error_is_overwritten (w : World) (name : String) (body : JsVal) (i : String)
    (profile : JsVal)
    (hf : w.fetchJson (identityUrl name) = .ok body)
    (hid : ownField body "id" = some (.str i))
    (hs : w.fetchJson (sessionUrl i) = .ok profile)
    (hp : ownField profile "properties" = none ∨
      ownField profile "properties" = some (.arr [])) :
    Index.profileStage w i = .error profileNotFound ∧
      Index.GetProfile w name = .error invalidUsername ∧
      ∀ (w2 : World) (e : JsError), w2.fetchJson (identityUrl name) = .error e →
        Index.GetProfile w2 name = Index.GetProfile w name := by
  have hg := getProp_of_ownField body "id" _ hid
  obtain ⟨e, he⟩ := decodePayload_throws w profile hp
  have hstage : Index.profileStage w i = .error profileNotFound := by
    simp [Index.profileStage, Index.onProfile, hs, he, catchThrow, bind, Except.bind]
  have hget : Index.GetProfile w name = .error invalidUsername := by
    simp [Index.GetProfile, Index.onUuid, hf, hg, toStr, hstage, catchThrow, bind, Except.bind]
  refine ⟨hstage, hget, ?_⟩
  intro w2 e2 h2
  rw [hget]
  simp [Index.GetProfile, h2, catchThrow, bind, Except.bind]

/-- Witness for C6: the scripted world whose session profile has an empty
properties list. -/
theorem profile_error_is_overwritten_witness :
    Index.profileStage bareWorld exampleId = .error profileNotFound ∧
      Index.GetProfile bareWorld "AsteroidsMC" = .error invalidUsername ∧
      ∀ (w2 : World) (e : JsError), w2.fetchJson (identityUrl "AsteroidsMC") = .error e →
        Index.GetProfile w2 "AsteroidsMC" = Index.GetProfile bareWorld "AsteroidsMC" :=
  profile_error_is_overwritten bareWorld "AsteroidsMC" identityBody exampleId bareProfile
    (by rfl) (by rfl) (by rfl) (Or.inr (by rfl))

/-! ## The slim flag of the record -/

/-- Every value but `undefined` and `null` answers a read. -/
theorem getProp_ok_of_ne (v : JsVal) (k : String) (hu : v ≠ .undefined) (hn : v ≠ .null) :
    ∃ x, getProp v k = .ok x := by
  cases v with
  | undefined => exact absurd rfl hu
  | null => exact absurd rfl hn
  | bool b => exact ⟨_, rfl⟩
  | num c => exact ⟨_, rfl⟩
  | obj fields => exact ⟨_, rfl⟩
  | arr xs =>
    simp only [getProp]
    split <;> exact ⟨_, rfl⟩
  | str s =>
    simp only [getProp]
    split
    · split <;> exact ⟨_, rfl⟩
    · exact ⟨_, rfl⟩

/-- A truthy value answers a read. -/
theorem getProp_ok_of_truthy (v : JsVal) (k : String) (h : truthy v = true) :
    ∃ x, getProp v k = .ok x := by
  apply getProp_ok_of_ne
  · intro hv
    rw [hv] at h
    exact absurd h (by decide)
  · intro hv
    rw [hv] at h
    exact absurd h (by decide)

/-- Line 72 never throws. -/
theorem skinOf_total (SKIN : JsVal) : ∃ x, Index.skinOf SKIN = .ok x := by
  by_cases h : truthy SKIN = true
  · obtain ⟨x, hx⟩ := getProp_ok_of_truthy SKIN "url" h
    exact ⟨x, by simp [Index.skinOf, h, hx]⟩
  · exact ⟨SKIN, by simp [Index.skinOf, h]⟩

/-- Line 73 never throws. -/
theorem capeOf_total (CAPE : JsVal) : ∃ x, Index.capeOf CAPE = .ok x := by
  by_cases h : truthy CAPE = true
  · obtain ⟨x, hx⟩ := getProp_ok_of_truthy CAPE "url" h
    refine ⟨if truthy x = true then x else .str "No cape found", ?_⟩
    simp only [Index.capeOf, h, hx, if_true, bind, Except.bind, pure, Except.pure]
  · refine ⟨if truthy CAPE = true then CAPE else .str "No cape found", ?_⟩
    simp [Index.capeOf, h, bind, Except.bind, pure, Except.pure]

/-- The record of lines 65-75 is built whenever the profile can be read and the
payload has textures that are neither `undefined` nor `null`. -/
theorem buildRecord_total (profile payload textures idv : JsVal)
    (hid : getProp profile "id" = .ok idv)
    (ht : getProp payload "textures" = .ok textures)
    (hu : textures ≠ .undefined) (hn : textures ≠ .null) :
    ∃ r, Index.buildRecord profile payload = .ok r := by
  obtain ⟨ts, hts⟩ := getProp_ok_other payload "textures" "timestamp" _ ht
  obtain ⟨SKIN, hS⟩ := getProp_ok_of_ne textures "SKIN" hu hn
  obtain ⟨CAPE, hC⟩ := getProp_ok_of_ne textures "CAPE" hu hn
  obtain ⟨namev, hname⟩ := getProp_ok_other profile "id" "name" _ hid
  obtain ⟨skin, hskin⟩ := skinOf_total SKIN
  obtain ⟨cape, hcape⟩ := capeOf_total CAPE
  obtain ⟨b, hb, _⟩ := isSlimOf_spec SKIN
  refine ⟨.obj [("timestamp", ts), ("uuid", idv), ("username", namev), ("skin", skin),
    ("cape", cape), ("isSlim", .bool b)], ?_⟩
  simp only [Index.buildRecord, hts, ht, hS, hC, hid, hname, hskin, hcape, hb, bind, Except.bind,
    pure, Except.pure]

/-- C1: for every session profile whose payload decodes and has textures (neither
undefined nor null), the callback of index.js lines 64-76 builds a record, and
that record's isSlim is the boolean true if and only if the textures have a SKIN
entry that carries metadata whose model is the string slim, and the boolean
false in every other case. -/
theorem isSlim_true_iff_slim_model (w : World) (profile payload textures : JsVal)
    (hp : Index.decodePayload w profile = .ok payload)
    (ht : getProp payload "textures" = .ok textures)
    (hu : textures ≠ .undefined) (hn : textures ≠ .null) :
    ∃ r, Index.onProfile w profile = .ok r ∧
      (getProp r "isSlim" = .ok (.bool true) ↔ SlimModel textures) ∧
      (¬ SlimModel textures → getProp r "isSlim" = .ok (.bool false)) := by
  have hprops : ∃ x, getProp profile "properties" = .ok x := by
    simp only [Index.decodePayload, bind_ok] at hp
    obtain ⟨x, hx, _⟩ := hp
    exact ⟨x, hx⟩
  obtain ⟨x, hx⟩ := hprops
  obtain ⟨idv, hid⟩ := getProp_ok_other profile "properties" "id" _ hx
  obtain ⟨r, hr⟩ := buildRecord_total profile payload textures idv hid ht hu hn
  have hon : Index.onProfile w profile = .ok r := by
    simp only [Index.onProfile, hp, bind, Except.bind, hr]
  obtain ⟨payload2, textures2, hp2, ht2, hiff, hfalse⟩ := built_record_isSlim w profile r hon
  rw [hp] at hp2
  cases hp2
  rw [ht] at ht2
  cases ht2
  exact ⟨r, hon, hiff, hfalse⟩

/-- The textures of the payload without metadata are not a slim model. -/
theorem roundTrip_not_slim (X Y : String) :
    ¬ SlimModel (.obj [("SKIN", .obj [("url", .str X)]), ("CAPE", .obj [("url", .str Y)])]) := by
  rintro ⟨skin, md, h1, h2, _⟩
  have hs : skin = .obj [("url", .str X)] := by
    have : ownField (.obj [("SKIN", .obj [("url", .str X)]), ("CAPE", .obj [("url", .str Y)])])
        "SKIN" = some (.obj [("url", .str X)]) := by rfl
    rw [this] at h1
    exact (Option.some.inj h1).symm
  subst hs
  have : ownField (.obj [("url", .str X)]) "metadata" = none := by rfl
  rw [this] at h2
  exact absurd h2 (by simp)

/-- Witness for C1: three scripted profiles.  The slim skin gives a record with
isSlim true; the skin with model classic and the skin without metadata each
give a record with isSlim false. -/
theorem isSlim_true_iff_slim_model_witness :
    (Index.onProfile (knownWorld slimValue) (sessionProfile slimValue) =
        .ok (.obj [("timestamp", .num "1600000000000"), ("uuid", .str exampleId),
          ("username", .str "AsteroidsMC"),
          ("skin", .str "http://textures.minecraft.net/texture/a1"),
          ("cape", .str "No cape found"), ("isSlim", .bool true)]) ∧
      Index.onProfile (knownWorld classicValue) (sessionProfile classicValue) =
        .ok (.obj [("timestamp", .undefined), ("uuid", .str exampleId),
          ("username", .str "AsteroidsMC"),
          ("skin", .str "http://textures.minecraft.net/texture/a1"),
          ("cape", .str "No cape found"), ("isSlim", .bool false)]) ∧
      Index.onProfile (knownWorld roundTripValue) (sessionProfile roundTripValue) =
        .ok (.obj [("timestamp", .undefined), ("uuid", .str exampleId),
          ("username", .str "AsteroidsMC"), ("skin", .str "X"), ("cape", .str "Y"),
          ("isSlim", .bool false)])) ∧
      ¬ SlimModel (.obj [("SKIN", .obj [("url", .str "X")]), ("CAPE", .obj [("url", .str "Y")])]) ∧
      ∃ r, Index.onProfile (knownWorld roundTripValue) (sessionProfile roundTripValue) = .ok r ∧
        (getProp r "isSlim" = .ok (.bool true) ↔
          SlimModel (.obj [("SKIN", .obj [("url", .str "X")]),
            ("CAPE", .obj [("url", .str "Y")])])) ∧
        (¬ SlimModel (.obj [("SKIN", .obj [("url", .str "X")]),
            ("CAPE", .obj [("url", .str "Y")])]) →
          getProp r "isSlim" = .ok (.bool false)) :=
  ⟨⟨by rfl, by rfl, by rfl⟩, roundTrip_not_slim "X" "Y",
    isSlim_true_iff_slim_model (knownWorld roundTripValue) (sessionProfile roundTripValue)
      (roundTripPayload "X" "Y")
      (.obj [("SKIN", .obj [("url", .str "X")]), ("CAPE", .obj [("url", .str "Y")])])
      (by rfl) (by rfl) (by simp) (by simp)⟩

/-! ## The profile decoder of `src/Bin/GetProfile.js` -/

/-- C2: when the first property's value decodes to the payload
{textures:{SKIN:{url:X}, CAPE:{url:Y}}}, the decoder of Bin/GetProfile.js returns
a record with skin X and cape Y whose isSlim is undefined, not the boolean
false. -/
theorem bin_isSlim_is_undefined (w : World) (uuid : String)
    (uid properties first value text : JsVal) (X Y : String)
    (hf : w.fetchJson (sessionUrl uuid) = .ok uid)
    (h1 : getProp uid "properties" = .ok properties)
    (h2 : getProp properties "0" = .ok first)
    (h3 : getProp first "value" = .ok value)
    (hd : w.base64Decode value = .ok text)
    (hp : w.jsonParse text = .ok (roundTripPayload X Y)) :
    ∃ r, (Bin.GetProfile w uuid).result = .ok r ∧
      getProp r "skin" = .ok (.str X) ∧ getProp r "cape" = .ok (.str Y) ∧
      getProp r "isSlim" = .ok .undefined ∧
      getProp r "isSlim" ≠ .ok (.bool false) := by
  obtain ⟨idv, hidv⟩ := getProp_ok_other uid "properties" "id" _ h1
  obtain ⟨namev, hnamev⟩ := getProp_ok_other uid "properties" "name" _ h1
  refine ⟨.obj [("id", idv), ("name", namev), ("timestamp", .undefined), ("skin", .str X),
    ("cape", .str Y), ("isSlim", .undefined)], ?_, by rfl, by rfl, by rfl, ?_⟩
  · simp only [Bin.GetProfile, Bin.fetchOrLog, Bin.decodeProfile, hf, h1, h2, h3, hd, hp, bind,
      Except.bind]
    have e1 : getProp (roundTripPayload X Y) "timestamp" = .ok .undefined := by rfl
    have e2 : getProp (roundTripPayload X Y) "textures" =
        .ok (.obj [("SKIN", .obj [("url", .str X)]), ("CAPE", .obj [("url", .str Y)])]) := by
      rfl
    have e3 : getProp (.obj [("SKIN", .obj [("url", .str X)]), ("CAPE", .obj [("url", .str Y)])])
        "SKIN" = .ok (.obj [("url", .str X)]) := by rfl
    have e4 : getProp (.obj [("SKIN", .obj [("url", .str X)]), ("CAPE", .obj [("url", .str Y)])])
        "CAPE" = .ok (.obj [("url", .str Y)]) := by rfl
    have e5 : Bin.skinOf (.obj [("url", .str X)]) = .ok (.str X) := by rfl
    have e6 : Bin.capeOf (.obj [("url", .str Y)]) = .ok (.str Y) := by rfl
    have e7 : Bin.isSlimOf (.obj [("url", .str X)]) = .ok .undefined := by rfl
    simp only [e1, e2, e3, e4, e5, e6, e7, hidv, hnamev]
    rfl
  · intro h
    simp [getProp, List.lookup] at h

/-- Witness for C2: the scripted profile whose value is the base64 encoding of
the payload with X and Y for the two URLs. -/
theorem bin_isSlim_is_undefined_witness :
    ∃ r, (Bin.GetProfile (knownWorld roundTripValue) exampleId).result = .ok r ∧
      getProp r "skin" = .ok (.str "X") ∧ getProp r "cape" = .ok (.str "Y") ∧
      getProp r "isSlim" = .ok .undefined ∧
      getProp r "isSlim" ≠ .ok (.bool false) :=
  bin_isSlim_is_undefined (knownWorld roundTripValue) exampleId (sessionProfile roundTripValue)
    (.arr [.obj [("name", .str "textures"), ("value", .str roundTripValue)]])
    (.obj [("name", .str "textures"), ("value", .str roundTripValue)])
    (.str roundTripValue) (.str roundTripText) "X" "Y"
    (by rfl) (by rfl) (by rfl) (by rfl) (by rfl) (by rfl)

/-- C7 (amended): when the first property's value cannot be decoded, because
Base64.decode throws or because JSON.parse throws on the decoded text, the
decoder of Bin/GetProfile.js fails with that very exception. -/
theorem bin_decode_error_is_raw (w : World) (uuid : String)
    (uid properties first value : JsVal) (e : JsError)
    (hf : w.fetchJson (sessionUrl uuid) = .ok uid)
    (h1 : getProp uid "properties" = .ok properties)
    (h2 : getProp properties "0" = .ok first)
    (h3 : getProp first "value" = .ok value)
    (hfail : w.base64Decode value = .error e ∨
      ∃ text, w.base64Decode value = .ok text ∧ w.jsonParse text = .error e) :
    (Bin.GetProfile w uuid).result = .error e := by
  rcases hfail with hd | ⟨text, hd, hp⟩
  · simp [Bin.GetProfile, Bin.fetchOrLog, Bin.decodeProfile, hf, h1, h2, h3, hd, bind,
      Except.bind]
  · simp [Bin.GetProfile, Bin.fetchOrLog, Bin.decodeProfile, hf, h1, h2, h3, hd, hp, bind,
      Except.bind]

/-- Witness for C7: a value that is valid base64 of a text that is not JSON. -/
theorem bin_decode_error_is_raw_witness :
    (Bin.GetProfile (knownWorld "bm90IGpzb24=") exampleId).result =
      .error ⟨"SyntaxError", "Unexpected token in JSON"⟩ :=
  bin_decode_error_is_raw (knownWorld "bm90IGpzb24=") exampleId (sessionProfile "bm90IGpzb24=")
    (.arr [.obj [("name", .str "textures"), ("value", .str "bm90IGpzb24=")]])
    (.obj [("name", .str "textures"), ("value", .str "bm90IGpzb24=")])
    (.str "bm90IGpzb24=") _ (by rfl) (by rfl) (by rfl) (by rfl)
    (Or.inr ⟨.str "not json", by rfl, by rfl⟩)

/-- Counterexample for C7: on a value that is not base64 at all, the decoder of
Bin/GetProfile.js rejects with exactly the SyntaxError that JSON.parse threw on
the decoded text; no other error takes its place. -/
theorem bin_raw_syntax_error_reaches_caller :
    (knownWorld "%%%").base64Decode (.str "%%%") = .ok (.str "") ∧
      (knownWorld "%%%").jsonParse (.str "") =
        .error ⟨"SyntaxError", "Unexpected token in JSON"⟩ ∧
      (Bin.GetProfile (knownWorld "%%%") exampleId).result =
        (knownWorld "%%%").jsonParse (.str "") :=
  ⟨by rfl, by rfl, by rfl⟩

end MinecraftUserdata
